import Mathlib

/-!
Verification of the command registry and dispatch subsystem of the `jj`
command-line tool (`cli/src/commands/mod.rs`): the command catalog, the
capability-gated schema builder (`default_app`), the parser/extractor
projecting a generic match result into the `Command` union, the exhaustive
dispatcher (`run_command`), and the deprecation adapter (`renamed_cmd`).

Shallow embedding conventions:
- The output sink `Ui` (external crate type `crate::ui::Ui`) is modelled as a
  pair of channels (ordinary output lines and warning lines) together with an
  explicit schedule of injected I/O write failures, so that the behaviour of
  fallible `writeln!` calls can be stated.
- Handler functions mutate the `Ui` and return `Result<(), CommandError>`;
  they are modelled as pure functions `Ui → CommandHelper → Args →
  Ui × Except CommandError Unit`.
- Per-command argument payloads are decoded by the external matching engine
  against argument-schema types living in sibling modules that are not part
  of this file; each is modelled as an opaque datum (a `Nat`).
-/

/-- The two build capability groups gating command families
(`#[cfg(feature = "git")]` and `#[cfg(feature = "bench")]`). -/
inductive Cap where
  | git
  | bench
deriving DecidableEq, Repr

/-- The capability set: one boolean per build feature, resolved once per
binary. -/
structure Caps where
  git : Bool
  bench : Bool
deriving DecidableEq, Repr

/-- Errors returned by command handlers (`crate::command_error::CommandError`,
external to this module). `ioWrite` models an `std::io::Error` converted by
the `?` operator on `writeln!`; `handler` models the opaque caller-defined
error domain of the business-logic handlers. -/
inductive CommandError where
  | ioWrite
  | handler (code : Nat)
deriving DecidableEq, Repr

/-- Modelled from the spec: the output sink (`crate::ui::Ui`, external to this
module) with an ordinary output channel, a dedicated warning channel
(`ui.warning_default()`), and a schedule of injected write failures: each
warning write consumes the head of `writeFail`; a `true` head makes that
write fail with an I/O error. An empty schedule means all writes succeed. -/
structure Ui where
  out : List String
  warnings : List String
  writeFail : List Bool
deriving DecidableEq, Repr

/-- One `writeln!(ui.warning_default(), msg)` call: appends one line to the
warning channel, or fails with an I/O error according to the failure
schedule. -/
def warning_writeln (ui : Ui) (msg : String) : Ui × Except CommandError Unit :=
  match ui.writeFail with
  | [] => ({ ui with warnings := ui.warnings ++ [msg] }, Except.ok ())
  | b :: rest =>
    if b then ({ ui with writeFail := rest }, Except.error CommandError.ioWrite)
    else ({ ui with warnings := ui.warnings ++ [msg], writeFail := rest }, Except.ok ())

/-- The generic match result produced by the external argument-matching
engine (clap `ArgMatches`): the canonical subcommand name (aliases already
resolved by the engine) and the already-decoded argument payload, modelled
as an opaque datum. -/
structure ArgMatches where
  subcommand : String
  payload : Nat
deriving DecidableEq, Repr

/-- The shared invocation context (`crate::cli_util::CommandHelper`, external
to this module): repository state, configuration, working directory; the only
part this module reads is `matches()`. -/
structure CommandHelper where
  arg_matches : ArgMatches
deriving DecidableEq, Repr

/-- The type of command handler functions
`fn(&mut Ui, &CommandHelper, &Args) -> Result<(), CommandError>`. -/
def HandlerFn (A : Type) : Type :=
  Ui → CommandHelper → A → Ui × Except CommandError Unit

/-- First deprecation warning line of `renamed_cmd` (mod.rs line 332). -/
def deprecatedMsg (old_name new_name : String) : String :=
  s!"`jj {old_name}` is deprecated; use `jj {new_name}` instead, which is equivalent"

/-- Second deprecation warning line of `renamed_cmd` (mod.rs line 336). -/
def removedMsg (old_name : String) : String :=
  s!"`jj {old_name}` will be removed in a future version, and this will be a hard error"

/-- The function `renamed_cmd` (mod.rs lines 324-340): wraps the handler of a command that
was renamed from `old_name` to `new_name`. The returned closure writes two
warning lines (each `writeln!` carries a `?`, so a write failure returns the
error immediately), then invokes the wrapped handler and returns its result. -/
def renamed_cmd {A : Type} (old_name new_name : String) (cmd : HandlerFn A) :
    HandlerFn A :=
  fun ui command args =>
    match warning_writeln ui (deprecatedMsg old_name new_name) with
    | (ui1, Except.error e) => (ui1, Except.error e)
    | (ui1, Except.ok _) =>
      match warning_writeln ui1 (removedMsg old_name) with
      | (ui2, Except.error e) => (ui2, Except.error e)
      | (ui2, Except.ok _) => cmd ui2 command args

/-!
Argument-schema types. Each subcommand owns one argument type (e.g.
`abandon::AbandonArgs`), defined in a sibling module; the external matching
engine decodes raw flags/positionals into it. The decoded content is opaque
to this module, so each is modelled as an opaque datum.
-/

abbrev AbandonArgs := Nat
abbrev AbsorbArgs := Nat
abbrev BenchCommand := Nat
abbrev BisectCommand := Nat
abbrev BookmarkCommand := Nat
abbrev CommitArgs := Nat
abbrev ConfigCommand := Nat
abbrev DebugCommand := Nat
abbrev DescribeArgs := Nat
abbrev DiffArgs := Nat
abbrev DiffeditArgs := Nat
abbrev DuplicateArgs := Nat
abbrev EditArgs := Nat
abbrev EvologArgs := Nat
abbrev FileCommand := Nat
abbrev FixArgs := Nat
abbrev GerritCommand := Nat
abbrev GitCommand := Nat
abbrev HelpArgs := Nat
abbrev InterdiffArgs := Nat
abbrev LogArgs := Nat
abbrev MetaeditArgs := Nat
abbrev NewArgs := Nat
abbrev NextArgs := Nat
abbrev OperationCommand := Nat
abbrev ParallelizeArgs := Nat
abbrev PrevArgs := Nat
abbrev RebaseArgs := Nat
abbrev RedoArgs := Nat
abbrev ResolveArgs := Nat
abbrev RestoreArgs := Nat
abbrev RevertArgs := Nat
abbrev RootArgs := Nat
abbrev RunArgs := Nat
abbrev ShowArgs := Nat
abbrev SignArgs := Nat
abbrev SimplifyParentsArgs := Nat
abbrev SparseCommand := Nat
abbrev SplitArgs := Nat
abbrev SquashArgs := Nat
abbrev StatusArgs := Nat
abbrev TagCommand := Nat
abbrev UndoArgs := Nat
abbrev UnsignArgs := Nat
abbrev UtilCommand := Nat
abbrev VersionArgs := Nat
abbrev WorkspaceArgs := Nat

/-- The closed tagged union of subcommands (mod.rs lines 120-188), one variant
per descriptor, each carrying the decoded argument value of that descriptor.
`Bench` is compiled under `feature = "bench"`; `Gerrit` and `Git` under
`feature = "git"`; the model covers the full-feature build, which contains
every variant. -/
inductive Command where
  | Abandon (args : AbandonArgs)
  | Absorb (args : AbsorbArgs)
  | Bench (args : BenchCommand)
  | Bisect (args : BisectCommand)
  | Bookmark (args : BookmarkCommand)
  | Commit (args : CommitArgs)
  | Config (args : ConfigCommand)
  | Debug (args : DebugCommand)
  | Describe (args : DescribeArgs)
  | Diff (args : DiffArgs)
  | Diffedit (args : DiffeditArgs)
  | Duplicate (args : DuplicateArgs)
  | Edit (args : EditArgs)
  | Evolog (args : EvologArgs)
  | File (args : FileCommand)
  | Fix (args : FixArgs)
  | Gerrit (args : GerritCommand)
  | Git (args : GitCommand)
  | Help (args : HelpArgs)
  | Interdiff (args : InterdiffArgs)
  | Log (args : LogArgs)
  | Metaedit (args : MetaeditArgs)
  | New (args : NewArgs)
  | Next (args : NextArgs)
  | Operation (args : OperationCommand)
  | Parallelize (args : ParallelizeArgs)
  | Prev (args : PrevArgs)
  | Rebase (args : RebaseArgs)
  | Redo (args : RedoArgs)
  | Resolve (args : ResolveArgs)
  | Restore (args : RestoreArgs)
  | Revert (args : RevertArgs)
  | Root (args : RootArgs)
  | Run (args : RunArgs)
  | Show (args : ShowArgs)
  | Sign (args : SignArgs)
  | SimplifyParents (args : SimplifyParentsArgs)
  | Sparse (args : SparseCommand)
  | Split (args : SplitArgs)
  | Squash (args : SquashArgs)
  | Status (args : StatusArgs)
  | Tag (args : TagCommand)
  | Undo (args : UndoArgs)
  | Unsign (args : UnsignArgs)
  | Util (args : UtilCommand)
  | Version (args : VersionArgs)
  | Workspace (args : WorkspaceArgs)
deriving DecidableEq, Repr

/-- The canonical (kebab-case) subcommand name of each variant, as derived by
the argument-matching engine from the variant name. -/
def canonical_name : Command → String
  | Command.Abandon _ => "abandon"
  | Command.Absorb _ => "absorb"
  | Command.Bench _ => "bench"
  | Command.Bisect _ => "bisect"
  | Command.Bookmark _ => "bookmark"
  | Command.Commit _ => "commit"
  | Command.Config _ => "config"
  | Command.Debug _ => "debug"
  | Command.Describe _ => "describe"
  | Command.Diff _ => "diff"
  | Command.Diffedit _ => "diffedit"
  | Command.Duplicate _ => "duplicate"
  | Command.Edit _ => "edit"
  | Command.Evolog _ => "evolog"
  | Command.File _ => "file"
  | Command.Fix _ => "fix"
  | Command.Gerrit _ => "gerrit"
  | Command.Git _ => "git"
  | Command.Help _ => "help"
  | Command.Interdiff _ => "interdiff"
  | Command.Log _ => "log"
  | Command.Metaedit _ => "metaedit"
  | Command.New _ => "new"
  | Command.Next _ => "next"
  | Command.Operation _ => "operation"
  | Command.Parallelize _ => "parallelize"
  | Command.Prev _ => "prev"
  | Command.Rebase _ => "rebase"
  | Command.Redo _ => "redo"
  | Command.Resolve _ => "resolve"
  | Command.Restore _ => "restore"
  | Command.Revert _ => "revert"
  | Command.Root _ => "root"
  | Command.Run _ => "run"
  | Command.Show _ => "show"
  | Command.Sign _ => "sign"
  | Command.SimplifyParents _ => "simplify-parents"
  | Command.Sparse _ => "sparse"
  | Command.Split _ => "split"
  | Command.Squash _ => "squash"
  | Command.Status _ => "status"
  | Command.Tag _ => "tag"
  | Command.Undo _ => "undo"
  | Command.Unsign _ => "unsign"
  | Command.Util _ => "util"
  | Command.Version _ => "version"
  | Command.Workspace _ => "workspace"

/-- The registry of handler functions, one per descriptor: the functions
`abandon::cmd_abandon`, ..., `workspace::cmd_workspace` named in the arms of
`run_command`. Their bodies are external business logic, so the dispatcher is
stated over an arbitrary registry. -/
structure Handlers where
  cmd_abandon : HandlerFn AbandonArgs
  cmd_absorb : HandlerFn AbsorbArgs
  cmd_bench : HandlerFn BenchCommand
  cmd_bisect : HandlerFn BisectCommand
  cmd_bookmark : HandlerFn BookmarkCommand
  cmd_commit : HandlerFn CommitArgs
  cmd_config : HandlerFn ConfigCommand
  cmd_debug : HandlerFn DebugCommand
  cmd_describe : HandlerFn DescribeArgs
  cmd_diff : HandlerFn DiffArgs
  cmd_diffedit : HandlerFn DiffeditArgs
  cmd_duplicate : HandlerFn DuplicateArgs
  cmd_edit : HandlerFn EditArgs
  cmd_evolog : HandlerFn EvologArgs
  cmd_file : HandlerFn FileCommand
  cmd_fix : HandlerFn FixArgs
  cmd_gerrit : HandlerFn GerritCommand
  cmd_git : HandlerFn GitCommand
  cmd_help : HandlerFn HelpArgs
  cmd_interdiff : HandlerFn InterdiffArgs
  cmd_log : HandlerFn LogArgs
  cmd_metaedit : HandlerFn MetaeditArgs
  cmd_new : HandlerFn NewArgs
  cmd_next : HandlerFn NextArgs
  cmd_operation : HandlerFn OperationCommand
  cmd_parallelize : HandlerFn ParallelizeArgs
  cmd_prev : HandlerFn PrevArgs
  cmd_rebase : HandlerFn RebaseArgs
  cmd_redo : HandlerFn RedoArgs
  cmd_resolve : HandlerFn ResolveArgs
  cmd_restore : HandlerFn RestoreArgs
  cmd_revert : HandlerFn RevertArgs
  cmd_root : HandlerFn RootArgs
  cmd_run : HandlerFn RunArgs
  cmd_show : HandlerFn ShowArgs
  cmd_sign : HandlerFn SignArgs
  cmd_simplify_parents : HandlerFn SimplifyParentsArgs
  cmd_sparse : HandlerFn SparseCommand
  cmd_split : HandlerFn SplitArgs
  cmd_squash : HandlerFn SquashArgs
  cmd_status : HandlerFn StatusArgs
  cmd_tag : HandlerFn TagCommand
  cmd_undo : HandlerFn UndoArgs
  cmd_unsign : HandlerFn UnsignArgs
  cmd_util : HandlerFn UtilCommand
  cmd_version : HandlerFn VersionArgs
  cmd_workspace : HandlerFn WorkspaceArgs

/-- The match block of `run_command` (mod.rs lines 267-320): exhaustively
routes a `Command` value to its handler, passing the output sink and the
shared invocation context through. There is no default arm; the arms appear
in the source order. -/
def dispatch (h : Handlers) (ui : Ui) (command_helper : CommandHelper) :
    Command → Ui × Except CommandError Unit
  | Command.Abandon args => h.cmd_abandon ui command_helper args
  | Command.Absorb args => h.cmd_absorb ui command_helper args
  | Command.Bench args => h.cmd_bench ui command_helper args
  | Command.Bisect args => h.cmd_bisect ui command_helper args
  | Command.Bookmark args => h.cmd_bookmark ui command_helper args
  | Command.Commit args => h.cmd_commit ui command_helper args
  | Command.Config args => h.cmd_config ui command_helper args
  | Command.Debug args => h.cmd_debug ui command_helper args
  | Command.Describe args => h.cmd_describe ui command_helper args
  | Command.Diff args => h.cmd_diff ui command_helper args
  | Command.Diffedit args => h.cmd_diffedit ui command_helper args
  | Command.Duplicate args => h.cmd_duplicate ui command_helper args
  | Command.Edit args => h.cmd_edit ui command_helper args
  | Command.Evolog args => h.cmd_evolog ui command_helper args
  | Command.File args => h.cmd_file ui command_helper args
  | Command.Fix args => h.cmd_fix ui command_helper args
  | Command.Gerrit sub_args => h.cmd_gerrit ui command_helper sub_args
  | Command.Git args => h.cmd_git ui command_helper args
  | Command.Help args => h.cmd_help ui command_helper args
  | Command.Interdiff args => h.cmd_interdiff ui command_helper args
  | Command.Log args => h.cmd_log ui command_helper args
  | Command.Metaedit args => h.cmd_metaedit ui command_helper args
  | Command.New args => h.cmd_new ui command_helper args
  | Command.Next args => h.cmd_next ui command_helper args
  | Command.Operation args => h.cmd_operation ui command_helper args
  | Command.Parallelize args => h.cmd_parallelize ui command_helper args
  | Command.Prev args => h.cmd_prev ui command_helper args
  | Command.Rebase args => h.cmd_rebase ui command_helper args
  | Command.Redo args => h.cmd_redo ui command_helper args
  | Command.Resolve args => h.cmd_resolve ui command_helper args
  | Command.Restore args => h.cmd_restore ui command_helper args
  | Command.Revert args => h.cmd_revert ui command_helper args
  | Command.Root args => h.cmd_root ui command_helper args
  | Command.Run args => h.cmd_run ui command_helper args
  | Command.SimplifyParents args => h.cmd_simplify_parents ui command_helper args
  | Command.Show args => h.cmd_show ui command_helper args
  | Command.Sign args => h.cmd_sign ui command_helper args
  | Command.Sparse args => h.cmd_sparse ui command_helper args
  | Command.Split args => h.cmd_split ui command_helper args
  | Command.Squash args => h.cmd_squash ui command_helper args
  | Command.Status args => h.cmd_status ui command_helper args
  | Command.Tag args => h.cmd_tag ui command_helper args
  | Command.Undo args => h.cmd_undo ui command_helper args
  | Command.Unsign args => h.cmd_unsign ui command_helper args
  | Command.Util args => h.cmd_util ui command_helper args
  | Command.Version args => h.cmd_version ui command_helper args
  | Command.Workspace args => h.cmd_workspace ui command_helper args

/-- Modelled from the spec: the decoding table of the derived
`Command::from_arg_matches` (generated by the matching-engine library from
the enum): it selects the one variant whose canonical name matches and
populates it with the already-decoded argument value. -/
def decoders : List (String × (Nat → Command)) :=
  [("abandon", Command.Abandon),
   ("absorb", Command.Absorb),
   ("bench", Command.Bench),
   ("bisect", Command.Bisect),
   ("bookmark", Command.Bookmark),
   ("commit", Command.Commit),
   ("config", Command.Config),
   ("debug", Command.Debug),
   ("describe", Command.Describe),
   ("diff", Command.Diff),
   ("diffedit", Command.Diffedit),
   ("duplicate", Command.Duplicate),
   ("edit", Command.Edit),
   ("evolog", Command.Evolog),
   ("file", Command.File),
   ("fix", Command.Fix),
   ("gerrit", Command.Gerrit),
   ("git", Command.Git),
   ("help", Command.Help),
   ("interdiff", Command.Interdiff),
   ("log", Command.Log),
   ("metaedit", Command.Metaedit),
   ("new", Command.New),
   ("next", Command.Next),
   ("operation", Command.Operation),
   ("parallelize", Command.Parallelize),
   ("prev", Command.Prev),
   ("rebase", Command.Rebase),
   ("redo", Command.Redo),
   ("resolve", Command.Resolve),
   ("restore", Command.Restore),
   ("revert", Command.Revert),
   ("root", Command.Root),
   ("run", Command.Run),
   ("show", Command.Show),
   ("sign", Command.Sign),
   ("simplify-parents", Command.SimplifyParents),
   ("sparse", Command.Sparse),
   ("split", Command.Split),
   ("squash", Command.Squash),
   ("status", Command.Status),
   ("tag", Command.Tag),
   ("undo", Command.Undo),
   ("unsign", Command.Unsign),
   ("util", Command.Util),
   ("version", Command.Version),
   ("workspace", Command.Workspace)]

/-- Modelled from the spec: `Command::from_arg_matches` — project the generic
match result into the `Command` union; `none` when the match result names a
command absent from the compiled-in catalog. -/
def from_arg_matches (m : ArgMatches) : Option Command :=
  (decoders.lookup m.subcommand).map (fun mk => mk m.payload)

/-- Outcome of `run_command`: either the dispatched handler result, or the
abort taken by `.unwrap()` (mod.rs line 266) when the match result projects
to no catalog entry — a defensive-invariant violation, not a user-facing
error. -/
inductive RunResult where
  | completed (r : Ui × Except CommandError Unit)
  | invariantViolation
deriving Repr

/-- The function `run_command` (mod.rs lines 264-321): decode the match result held by the
invocation context into a `Command` (aborting on the defensive-invariant
violation, mod.rs line 266), then route it through the exhaustive match. -/
def run_command (h : Handlers) (ui : Ui) (command_helper : CommandHelper) :
    RunResult :=
  match from_arg_matches command_helper.arg_matches with
  | some subcommand => RunResult.completed (dispatch h ui command_helper subcommand)
  | none => RunResult.invariantViolation

/-- An instrumented registry used to observe dispatch: the handler registered
for each descriptor writes the canonical name of that descriptor as one output
line and succeeds. -/
def traceHandlers : Handlers where
  cmd_abandon := fun ui _ _ => ({ ui with out := ui.out ++ ["abandon"] }, Except.ok ())
  cmd_absorb := fun ui _ _ => ({ ui with out := ui.out ++ ["absorb"] }, Except.ok ())
  cmd_bench := fun ui _ _ => ({ ui with out := ui.out ++ ["bench"] }, Except.ok ())
  cmd_bisect := fun ui _ _ => ({ ui with out := ui.out ++ ["bisect"] }, Except.ok ())
  cmd_bookmark := fun ui _ _ => ({ ui with out := ui.out ++ ["bookmark"] }, Except.ok ())
  cmd_commit := fun ui _ _ => ({ ui with out := ui.out ++ ["commit"] }, Except.ok ())
  cmd_config := fun ui _ _ => ({ ui with out := ui.out ++ ["config"] }, Except.ok ())
  cmd_debug := fun ui _ _ => ({ ui with out := ui.out ++ ["debug"] }, Except.ok ())
  cmd_describe := fun ui _ _ => ({ ui with out := ui.out ++ ["describe"] }, Except.ok ())
  cmd_diff := fun ui _ _ => ({ ui with out := ui.out ++ ["diff"] }, Except.ok ())
  cmd_diffedit := fun ui _ _ => ({ ui with out := ui.out ++ ["diffedit"] }, Except.ok ())
  cmd_duplicate := fun ui _ _ => ({ ui with out := ui.out ++ ["duplicate"] }, Except.ok ())
  cmd_edit := fun ui _ _ => ({ ui with out := ui.out ++ ["edit"] }, Except.ok ())
  cmd_evolog := fun ui _ _ => ({ ui with out := ui.out ++ ["evolog"] }, Except.ok ())
  cmd_file := fun ui _ _ => ({ ui with out := ui.out ++ ["file"] }, Except.ok ())
  cmd_fix := fun ui _ _ => ({ ui with out := ui.out ++ ["fix"] }, Except.ok ())
  cmd_gerrit := fun ui _ _ => ({ ui with out := ui.out ++ ["gerrit"] }, Except.ok ())
  cmd_git := fun ui _ _ => ({ ui with out := ui.out ++ ["git"] }, Except.ok ())
  cmd_help := fun ui _ _ => ({ ui with out := ui.out ++ ["help"] }, Except.ok ())
  cmd_interdiff := fun ui _ _ => ({ ui with out := ui.out ++ ["interdiff"] }, Except.ok ())
  cmd_log := fun ui _ _ => ({ ui with out := ui.out ++ ["log"] }, Except.ok ())
  cmd_metaedit := fun ui _ _ => ({ ui with out := ui.out ++ ["metaedit"] }, Except.ok ())
  cmd_new := fun ui _ _ => ({ ui with out := ui.out ++ ["new"] }, Except.ok ())
  cmd_next := fun ui _ _ => ({ ui with out := ui.out ++ ["next"] }, Except.ok ())
  cmd_operation := fun ui _ _ => ({ ui with out := ui.out ++ ["operation"] }, Except.ok ())
  cmd_parallelize := fun ui _ _ => ({ ui with out := ui.out ++ ["parallelize"] }, Except.ok ())
  cmd_prev := fun ui _ _ => ({ ui with out := ui.out ++ ["prev"] }, Except.ok ())
  cmd_rebase := fun ui _ _ => ({ ui with out := ui.out ++ ["rebase"] }, Except.ok ())
  cmd_redo := fun ui _ _ => ({ ui with out := ui.out ++ ["redo"] }, Except.ok ())
  cmd_resolve := fun ui _ _ => ({ ui with out := ui.out ++ ["resolve"] }, Except.ok ())
  cmd_restore := fun ui _ _ => ({ ui with out := ui.out ++ ["restore"] }, Except.ok ())
  cmd_revert := fun ui _ _ => ({ ui with out := ui.out ++ ["revert"] }, Except.ok ())
  cmd_root := fun ui _ _ => ({ ui with out := ui.out ++ ["root"] }, Except.ok ())
  cmd_run := fun ui _ _ => ({ ui with out := ui.out ++ ["run"] }, Except.ok ())
  cmd_show := fun ui _ _ => ({ ui with out := ui.out ++ ["show"] }, Except.ok ())
  cmd_sign := fun ui _ _ => ({ ui with out := ui.out ++ ["sign"] }, Except.ok ())
  cmd_simplify_parents := fun ui _ _ => ({ ui with out := ui.out ++ ["simplify-parents"] }, Except.ok ())
  cmd_sparse := fun ui _ _ => ({ ui with out := ui.out ++ ["sparse"] }, Except.ok ())
  cmd_split := fun ui _ _ => ({ ui with out := ui.out ++ ["split"] }, Except.ok ())
  cmd_squash := fun ui _ _ => ({ ui with out := ui.out ++ ["squash"] }, Except.ok ())
  cmd_status := fun ui _ _ => ({ ui with out := ui.out ++ ["status"] }, Except.ok ())
  cmd_tag := fun ui _ _ => ({ ui with out := ui.out ++ ["tag"] }, Except.ok ())
  cmd_undo := fun ui _ _ => ({ ui with out := ui.out ++ ["undo"] }, Except.ok ())
  cmd_unsign := fun ui _ _ => ({ ui with out := ui.out ++ ["unsign"] }, Except.ok ())
  cmd_util := fun ui _ _ => ({ ui with out := ui.out ++ ["util"] }, Except.ok ())
  cmd_version := fun ui _ _ => ({ ui with out := ui.out ++ ["version"] }, Except.ok ())
  cmd_workspace := fun ui _ _ => ({ ui with out := ui.out ++ ["workspace"] }, Except.ok ())

/-- A catalog entry: one subcommand descriptor — canonical name, matchable
aliases (`alias` and `visible_alias` attributes), the `hide` flag, and the
optional build-capability requirement (`#[cfg(feature = ...)]`). -/
structure Descriptor where
  name : String
  aliases : List String
  hide : Bool
  capability : Option Cap
deriving DecidableEq, Repr

/-- Abbreviation for a plain descriptor with no aliases, not hidden, and no
capability requirement. -/
def plainD (name : String) : Descriptor :=
  { name := name, aliases := [], hide := false, capability := none }

/-- The descriptor of `bench` (gated by `feature = "bench"`). -/
def benchD : Descriptor :=
  { name := "bench", aliases := [], hide := false, capability := some Cap.bench }

/-- The descriptor of `gerrit` (gated by `feature = "git"`). -/
def gerritD : Descriptor :=
  { name := "gerrit", aliases := [], hide := false, capability := some Cap.git }

/-- The descriptor of `git` (gated by `feature = "git"`). -/
def gitD : Descriptor :=
  { name := "git", aliases := [], hide := false, capability := some Cap.git }

/-- The descriptor of `evolog` (alias `obslog`, visible alias
`evolution-log`). -/
def evologD : Descriptor :=
  { name := "evolog", aliases := ["obslog", "evolution-log"], hide := false, capability := none }

/-- The descriptor of `operation` (visible alias `op`). -/
def operationD : Descriptor :=
  { name := "operation", aliases := ["op"], hide := false, capability := none }

/-- The descriptor of `run` (`#[command(hide = true)]`). -/
def runD : Descriptor :=
  { name := "run", aliases := [], hide := true, capability := none }

/-- The full command catalog, one descriptor per `Command` variant in enum
order (mod.rs lines 120-188), with the `alias`, `visible_alias`, `hide` and
`cfg` attributes carried over. -/
def fullCatalog : List Descriptor :=
  [plainD "abandon",
   plainD "absorb",
   benchD,
   plainD "bisect",
   plainD "bookmark",
   plainD "commit",
   plainD "config",
   plainD "debug",
   plainD "describe",
   plainD "diff",
   plainD "diffedit",
   plainD "duplicate",
   plainD "edit",
   evologD,
   plainD "file",
   plainD "fix",
   gerritD,
   gitD,
   plainD "help",
   plainD "interdiff",
   plainD "log",
   plainD "metaedit",
   plainD "new",
   plainD "next",
   operationD,
   plainD "parallelize",
   plainD "prev",
   plainD "rebase",
   plainD "redo",
   plainD "resolve",
   plainD "restore",
   plainD "revert",
   plainD "root",
   runD,
   plainD "show",
   plainD "sign",
   plainD "simplify-parents",
   plainD "sparse",
   plainD "split",
   plainD "squash",
   plainD "status",
   plainD "tag",
   plainD "undo",
   plainD "unsign",
   plainD "util",
   plainD "version",
   plainD "workspace"]

/-- The canonical names of the compiled-in catalog. -/
def catalogNames : List String := fullCatalog.map (fun d => d.name)

/-- Whether one capability flag is enabled in a capability set. -/
def capEnabled (caps : Caps) : Cap → Bool
  | Cap.git => caps.git
  | Cap.bench => caps.bench

/-- Whether the capability requirement of a descriptor is satisfied: descriptors
without a requirement are always compiled in. -/
def capSatisfied (caps : Caps) : Option Cap → Bool
  | none => true
  | some c => capEnabled caps c

/-- The catalog as compiled under a given capability set: a descriptor whose
`cfg` feature is off is absent from the binary altogether. -/
def build_schema (caps : Caps) : List Descriptor :=
  fullCatalog.filter (fun d => capSatisfied caps d.capability)

/-!
Help-category headings (mod.rs lines 89-113), presentation-only metadata
attached by `default_app`.
-/

def HELP_HEADING_COMMON_COMMANDS : String := "Common Commands"
def HELP_HEADING_EDITING_CHANGES : String := "Editing Changes"
def HELP_HEADING_REWRITING_CHANGES : String := "Rewriting Changes"
def HELP_HEADING_WORKING_COPY : String := "Working Copy"
def HELP_HEADING_FILE_OPERATIONS : String := "File Operations"
def HELP_HEADING_REVIEW_COMMANDS : String := "Review Commands"
def HELP_HEADING_REFERENCES : String := "References (Bookmarks & Tags)"
def HELP_HEADING_OPERATION_LOG : String := "Operation Log"
def HELP_HEADING_WORKSPACE : String := "Workspace"
def HELP_HEADING_ADVANCED : String := "Advanced"
def HELP_HEADING_CONFIGURATION_HELP : String := "Configuration & Help"
def HELP_HEADING_GIT_INTEGRATION : String := "Git Integration"
def HELP_HEADING_DEVELOPMENT : String := "Development"

/-- The unconditional `mut_subcommand` help-heading assignments of
`default_app` (mod.rs lines 193-245), in source order. -/
def baseHeadings : List (String × String) :=
  [("log", HELP_HEADING_COMMON_COMMANDS),
   ("show", HELP_HEADING_COMMON_COMMANDS),
   ("status", HELP_HEADING_COMMON_COMMANDS),
   ("diff", HELP_HEADING_COMMON_COMMANDS),
   ("commit", HELP_HEADING_COMMON_COMMANDS),
   ("new", HELP_HEADING_EDITING_CHANGES),
   ("describe", HELP_HEADING_EDITING_CHANGES),
   ("edit", HELP_HEADING_EDITING_CHANGES),
   ("abandon", HELP_HEADING_EDITING_CHANGES),
   ("duplicate", HELP_HEADING_EDITING_CHANGES),
   ("restore", HELP_HEADING_EDITING_CHANGES),
   ("revert", HELP_HEADING_EDITING_CHANGES),
   ("metaedit", HELP_HEADING_EDITING_CHANGES),
   ("split", HELP_HEADING_REWRITING_CHANGES),
   ("squash", HELP_HEADING_REWRITING_CHANGES),
   ("absorb", HELP_HEADING_REWRITING_CHANGES),
   ("rebase", HELP_HEADING_REWRITING_CHANGES),
   ("parallelize", HELP_HEADING_REWRITING_CHANGES),
   ("simplify-parents", HELP_HEADING_REWRITING_CHANGES),
   ("next", HELP_HEADING_WORKING_COPY),
   ("prev", HELP_HEADING_WORKING_COPY),
   ("diffedit", HELP_HEADING_REWRITING_CHANGES),
   ("resolve", HELP_HEADING_FILE_OPERATIONS),
   ("file", HELP_HEADING_FILE_OPERATIONS),
   ("sparse", HELP_HEADING_FILE_OPERATIONS),
   ("interdiff", HELP_HEADING_REVIEW_COMMANDS),
   ("evolog", HELP_HEADING_REVIEW_COMMANDS),
   ("bookmark", HELP_HEADING_REFERENCES),
   ("tag", HELP_HEADING_REFERENCES),
   ("operation", HELP_HEADING_OPERATION_LOG),
   ("undo", HELP_HEADING_OPERATION_LOG),
   ("redo", HELP_HEADING_OPERATION_LOG),
   ("workspace", HELP_HEADING_WORKSPACE),
   ("root", HELP_HEADING_WORKSPACE),
   ("bisect", HELP_HEADING_ADVANCED),
   ("fix", HELP_HEADING_ADVANCED),
   ("run", HELP_HEADING_ADVANCED),
   ("sign", HELP_HEADING_ADVANCED),
   ("unsign", HELP_HEADING_ADVANCED),
   ("config", HELP_HEADING_CONFIGURATION_HELP),
   ("version", HELP_HEADING_CONFIGURATION_HELP),
   ("debug", HELP_HEADING_CONFIGURATION_HELP),
   ("util", HELP_HEADING_CONFIGURATION_HELP)]

/-- The heading assignments present under a given capability set: the `git`
and `bench` blocks of `default_app` (mod.rs lines 247-259) exist only when
the corresponding feature is compiled in. -/
def appHeadings (caps : Caps) : List (String × String) :=
  baseHeadings
    ++ (if caps.git then
          [("git", HELP_HEADING_GIT_INTEGRATION),
           ("gerrit", HELP_HEADING_GIT_INTEGRATION)]
        else [])
    ++ (if caps.bench then [("bench", HELP_HEADING_DEVELOPMENT)] else [])

/-- One entry of the built application schema: a matchable descriptor plus
its presentation-only help heading. -/
structure AppEntry where
  desc : Descriptor
  heading : Option String
deriving DecidableEq, Repr

/-- The function `default_app` (mod.rs lines 190-262): the argument schema built from the
compiled-in catalog, with each subcommand tagged by its help heading. -/
def default_app (caps : Caps) : List AppEntry :=
  (build_schema caps).map (fun d => { desc := d, heading := (appHeadings caps).lookup d.name })

/-- Whether a schema entry is matched by an invocation token: the token
equals the canonical name or one of the aliases. -/
def matchesTok (tok : String) (d : Descriptor) : Bool :=
  d.name == tok || d.aliases.contains tok

/-- The error class owned by the external matching engine for a token that
matches no schema entry: an ordinary unknown-command user error. -/
inductive MatchError where
  | unknownCommand (tok : String)
deriving DecidableEq, Repr

/-- Modelled from the spec: the external matching engine resolving one
invocation token against the built schema — the first entry whose canonical
name or alias equals the token, or the uniform unknown-command user error. -/
def engine_match (app : List AppEntry) (tok : String) : Except MatchError Descriptor :=
  match app.find? (fun e => matchesTok tok e.desc) with
  | some e => Except.ok e.desc
  | none => Except.error (MatchError.unknownCommand tok)

/-- The end-to-end parse pipeline for one invocation token and decoded
payload: engine matching (alias resolution) against the built schema,
followed by projection into the `Command` union. -/
def parse (caps : Caps) (tok : String) (payload : Nat) : Option Command :=
  match engine_match (default_app caps) tok with
  | Except.error _ => none
  | Except.ok d => from_arg_matches { subcommand := d.name, payload := payload }

/-- All matchable names contributed by one descriptor: the canonical name
followed by the aliases. -/
def descNames (d : Descriptor) : List String := d.name :: d.aliases

/-- Every matchable name of a catalog, in catalog order. -/
def allMatchableNames (cat : List Descriptor) : List String :=
  (cat.map descNames).flatten

/-- Result of the schema self-check: either the schema is consistent, or the
process aborts. -/
inductive CheckResult where
  | passed
  | aborted
deriving DecidableEq, Repr

/-- Modelled from the spec: the schema consistency self-check invoked by the
`verify_app` test (`default_app().debug_assert()`, an external library
assertion): it aborts the process — unconditionally, not recoverably — if
any two descriptors share a canonical name or alias. -/
def debug_assert (cat : List Descriptor) : CheckResult :=
  if (allMatchableNames cat).Nodup then CheckResult.passed else CheckResult.aborted

/-- The `verify_app` test (mod.rs lines 346-349): runs the self-check on the
schema built by `default_app` in the full-feature test build. No parsing is
involved: the check consumes only the built schema. -/
def verify_app : CheckResult :=
  debug_assert ((default_app { git := true, bench := true }).map (fun e => e.desc))

/-!
Concrete fixtures used by witnesses and counterexamples.
-/

/-- A wrapped handler that always succeeds after writing one output line. -/
def okTraceHandler : HandlerFn Nat :=
  fun ui _ _ => ({ ui with out := ui.out ++ ["handler-ran"] }, Except.ok ())

/-- A wrapped handler that always fails with an opaque handler-domain
error. -/
def errHandler : HandlerFn Nat :=
  fun ui _ _ => (ui, Except.error (CommandError.handler 3))

/-- A concrete invocation context. -/
def sampleHelper : CommandHelper := { arg_matches := { subcommand := "status", payload := 0 } }

/-- A descriptor deliberately sharing the canonical name of the descriptor of
log, used to exercise the schema self-check on a duplicated catalog. -/
def dupD : Descriptor := { name := "log", aliases := [], hide := true, capability := none }

/-!
Helper lemmas shared by the claim theorems.
-/

theorem lookup_eq_none_of_keys {β : Type} (l : List (String × β)) (a : String)
    (h : ∀ p ∈ l, p.1 ≠ a) : l.lookup a = none := by
  induction l with
  | nil => rfl
  | cons p rest ih =>
    have h1 : p.1 ≠ a := h p (List.mem_cons_self p rest)
    have h2 : ∀ q ∈ rest, q.1 ≠ a := fun q hq => h q (List.mem_cons_of_mem p hq)
    have hbeq : (a == p.1) = false := by
      simp only [beq_eq_false_iff_ne]
      exact fun hcon => h1 hcon.symm
    simp [List.lookup, hbeq, ih h2]

theorem engine_match_unknown (app : List AppEntry) (tok : String)
    (h : ∀ e ∈ app, matchesTok tok e.desc = false) :
    engine_match app tok = Except.error (MatchError.unknownCommand tok) := by
  unfold engine_match
  cases hf : app.find? (fun e => matchesTok tok e.desc) with
  | none => rfl
  | some e =>
    have hmem := List.mem_of_find?_eq_some hf
    have hpred := List.find?_some hf
    rw [h e hmem] at hpred
    cases hpred

theorem mem_default_app {caps : Caps} {e : AppEntry} (he : e ∈ default_app caps) :
    e.desc ∈ fullCatalog ∧ capSatisfied caps e.desc.capability = true := by
  unfold default_app build_schema at he
  obtain ⟨d, hd, rfl⟩ := List.mem_map.mp he
  exact List.mem_filter.mp hd

theorem mem_allMatchableNames {s : String} {d : Descriptor} {cat : List Descriptor}
    (hd : d ∈ cat) (hs : s ∈ descNames d) : s ∈ allMatchableNames cat := by
  induction cat with
  | nil => cases hd
  | cons x xs ih =>
    have hsplit : allMatchableNames (x :: xs) = descNames x ++ allMatchableNames xs := rfl
    rw [hsplit, List.mem_append]
    rcases List.mem_cons.mp hd with rfl | hdm
    · exact Or.inl hs
    · exact Or.inr (ih hdm)

theorem shared_name_not_nodup (cat : List Descriptor) (d1 d2 : Descriptor) (s : String)
    (h1 : d1 ∈ cat) (h2 : d2 ∈ cat) (hne : d1 ≠ d2)
    (hs1 : s ∈ descNames d1) (hs2 : s ∈ descNames d2) :
    ¬ (allMatchableNames cat).Nodup := by
  induction cat with
  | nil => cases h1
  | cons x xs ih =>
    intro hnd
    have hsplit : allMatchableNames (x :: xs) = descNames x ++ allMatchableNames xs := rfl
    rw [hsplit, List.nodup_append] at hnd
    obtain ⟨hnx, hnxs, hdisj⟩ := hnd
    rcases List.mem_cons.mp h1 with rfl | h1m
    · rcases List.mem_cons.mp h2 with rfl | h2m
      · exact hne rfl
      · exact hdisj hs1 (mem_allMatchableNames h2m hs2)
    · rcases List.mem_cons.mp h2 with rfl | h2m
      · exact hdisj hs2 (mem_allMatchableNames h1m hs1)
      · exact ih h1m h2m hnxs

/-!
Claim theorems.
-/

/-- Claim C1: for every command variant compiled into the binary (one per
descriptor), dispatching that variant via run_command invokes exactly the
one handler registered for that descriptor — observed through a registry
whose handler for each descriptor writes that canonical name — and no
default or fallthrough dispatch path is taken: the outcome is always the
completed handler result, never the invariant-violation path. -/
theorem dispatch_totality (ui : Ui) (command_helper : CommandHelper) (c : Command)
    (hdec : from_arg_matches command_helper.arg_matches = some c) :
    run_command traceHandlers ui command_helper =
      RunResult.completed ({ ui with out := ui.out ++ [canonical_name c] }, Except.ok ()) := by
  unfold run_command
  rw [hdec]
  cases c <;> rfl

/-- Witness for C1 at the concrete variant abandon with payload 5. -/
theorem dispatch_totality_witness :
    run_command traceHandlers { out := [], warnings := [], writeFail := [] }
      { arg_matches := { subcommand := "abandon", payload := 5 } } =
      RunResult.completed ({ out := ["abandon"], warnings := [], writeFail := [] }, Except.ok ()) := by
  have h := dispatch_totality { out := [], warnings := [], writeFail := [] }
    { arg_matches := { subcommand := "abandon", payload := 5 } } (Command.Abandon 5) rfl
  simpa using h

/-- Claim C2: for every command value and every invocation context, the
dispatcher returns the result or error of the invoked handler verbatim — no
translation, wrapping, or suppression — and it passes the output sink and
the shared invocation context to the handler unchanged. Stated one variant
at a time over the match block of run_command, for an arbitrary handler
registry. -/
theorem dispatch_handler_passthrough (h : Handlers) (ui : Ui) (command_helper : CommandHelper) :
    (∀ a, dispatch h ui command_helper (Command.Abandon a) = h.cmd_abandon ui command_helper a) ∧
    (∀ a, dispatch h ui command_helper (Command.Absorb a) = h.cmd_absorb ui command_helper a) ∧
    (∀ a, dispatch h ui command_helper (Command.Bench a) = h.cmd_bench ui command_helper a) ∧
    (∀ a, dispatch h ui command_helper (Command.Bisect a) = h.cmd_bisect ui command_helper a) ∧
    (∀ a, dispatch h ui command_helper (Command.Bookmark a) = h.cmd_bookmark ui command_helper a) ∧
    (∀ a, dispatch h ui command_helper (Command.Commit a) = h.cmd_commit ui command_helper a) ∧
    (∀ a, dispatch h ui command_helper (Command.Config a) = h.cmd_config ui command_helper a) ∧
    (∀ a, dispatch h ui command_helper (Command.Debug a) = h.cmd_debug ui command_helper a) ∧
    (∀ a, dispatch h ui command_helper (Command.Describe a) = h.cmd_describe ui command_helper a) ∧
    (∀ a, dispatch h ui command_helper (Command.Diff a) = h.cmd_diff ui command_helper a) ∧
    (∀ a, dispatch h ui command_helper (Command.Diffedit a) = h.cmd_diffedit ui command_helper a) ∧
    (∀ a, dispatch h ui command_helper (Command.Duplicate a) = h.cmd_duplicate ui command_helper a) ∧
    (∀ a, dispatch h ui command_helper (Command.Edit a) = h.cmd_edit ui command_helper a) ∧
    (∀ a, dispatch h ui command_helper (Command.Evolog a) = h.cmd_evolog ui command_helper a) ∧
    (∀ a, dispatch h ui command_helper (Command.File a) = h.cmd_file ui command_helper a) ∧
    (∀ a, dispatch h ui command_helper (Command.Fix a) = h.cmd_fix ui command_helper a) ∧
    (∀ a, dispatch h ui command_helper (Command.Gerrit a) = h.cmd_gerrit ui command_helper a) ∧
    (∀ a, dispatch h ui command_helper (Command.Git a) = h.cmd_git ui command_helper a) ∧
    (∀ a, dispatch h ui command_helper (Command.Help a) = h.cmd_help ui command_helper a) ∧
    (∀ a, dispatch h ui command_helper (Command.Interdiff a) = h.cmd_interdiff ui command_helper a) ∧
    (∀ a, dispatch h ui command_helper (Command.Log a) = h.cmd_log ui command_helper a) ∧
    (∀ a, dispatch h ui command_helper (Command.Metaedit a) = h.cmd_metaedit ui command_helper a) ∧
    (∀ a, dispatch h ui command_helper (Command.New a) = h.cmd_new ui command_helper a) ∧
    (∀ a, dispatch h ui command_helper (Command.Next a) = h.cmd_next ui command_helper a) ∧
    (∀ a, dispatch h ui command_helper (Command.Operation a) = h.cmd_operation ui command_helper a) ∧
    (∀ a, dispatch h ui command_helper (Command.Parallelize a) = h.cmd_parallelize ui command_helper a) ∧
    (∀ a, dispatch h ui command_helper (Command.Prev a) = h.cmd_prev ui command_helper a) ∧
    (∀ a, dispatch h ui command_helper (Command.Rebase a) = h.cmd_rebase ui command_helper a) ∧
    (∀ a, dispatch h ui command_helper (Command.Redo a) = h.cmd_redo ui command_helper a) ∧
    (∀ a, dispatch h ui command_helper (Command.Resolve a) = h.cmd_resolve ui command_helper a) ∧
    (∀ a, dispatch h ui command_helper (Command.Restore a) = h.cmd_restore ui command_helper a) ∧
    (∀ a, dispatch h ui command_helper (Command.Revert a) = h.cmd_revert ui command_helper a) ∧
    (∀ a, dispatch h ui command_helper (Command.Root a) = h.cmd_root ui command_helper a) ∧
    (∀ a, dispatch h ui command_helper (Command.Run a) = h.cmd_run ui command_helper a) ∧
    (∀ a, dispatch h ui command_helper (Command.Show a) = h.cmd_show ui command_helper a) ∧
    (∀ a, dispatch h ui command_helper (Command.Sign a) = h.cmd_sign ui command_helper a) ∧
    (∀ a, dispatch h ui command_helper (Command.SimplifyParents a) = h.cmd_simplify_parents ui command_helper a) ∧
    (∀ a, dispatch h ui command_helper (Command.Sparse a) = h.cmd_sparse ui command_helper a) ∧
    (∀ a, dispatch h ui command_helper (Command.Split a) = h.cmd_split ui command_helper a) ∧
    (∀ a, dispatch h ui command_helper (Command.Squash a) = h.cmd_squash ui command_helper a) ∧
    (∀ a, dispatch h ui command_helper (Command.Status a) = h.cmd_status ui command_helper a) ∧
    (∀ a, dispatch h ui command_helper (Command.Tag a) = h.cmd_tag ui command_helper a) ∧
    (∀ a, dispatch h ui command_helper (Command.Undo a) = h.cmd_undo ui command_helper a) ∧
    (∀ a, dispatch h ui command_helper (Command.Unsign a) = h.cmd_unsign ui command_helper a) ∧
    (∀ a, dispatch h ui command_helper (Command.Util a) = h.cmd_util ui command_helper a) ∧
    (∀ a, dispatch h ui command_helper (Command.Version a) = h.cmd_version ui command_helper a) ∧
    (∀ a, dispatch h ui command_helper (Command.Workspace a) = h.cmd_workspace ui command_helper a) := by
  exact ⟨fun _ => rfl, fun _ => rfl, fun _ => rfl, fun _ => rfl, fun _ => rfl, fun _ => rfl, fun _ => rfl, fun _ => rfl, fun _ => rfl, fun _ => rfl, fun _ => rfl, fun _ => rfl, fun _ => rfl, fun _ => rfl, fun _ => rfl, fun _ => rfl, fun _ => rfl, fun _ => rfl, fun _ => rfl, fun _ => rfl, fun _ => rfl, fun _ => rfl, fun _ => rfl, fun _ => rfl, fun _ => rfl, fun _ => rfl, fun _ => rfl, fun _ => rfl, fun _ => rfl, fun _ => rfl, fun _ => rfl, fun _ => rfl, fun _ => rfl, fun _ => rfl, fun _ => rfl, fun _ => rfl, fun _ => rfl, fun _ => rfl, fun _ => rfl, fun _ => rfl, fun _ => rfl, fun _ => rfl, fun _ => rfl, fun _ => rfl, fun _ => rfl, fun _ => rfl, fun _ => rfl⟩

/-- Claim C3: for every old name, new name, wrapped handler, and argument
value, when the warning writes succeed the deprecation adapter writes
exactly two warning lines to the warning channel of the output sink, in
fixed order — first the deprecated-in-favor-of line, then the
future-hard-error line — and the wrapped handler runs only afterwards, on a
sink already carrying both warnings and with the ordinary output channel
untouched, so both warnings precede any handler output. -/
theorem renamed_cmd_warnings_order {A : Type} (old_name new_name : String) (cmd : HandlerFn A)
    (ui : Ui) (command : CommandHelper) (args : A)
    (hok : ui.writeFail = []) :
    renamed_cmd old_name new_name cmd ui command args =
      cmd { ui with warnings := ui.warnings ++ [deprecatedMsg old_name new_name, removedMsg old_name] }
        command args := by
  obtain ⟨o, w, f⟩ := ui
  simp only [Ui.writeFail] at hok
  subst hok
  simp [renamed_cmd, warning_writeln, List.append_assoc]

/-- Witness for C3 at a concrete succeeding handler. -/
theorem renamed_cmd_warnings_order_witness :
    renamed_cmd "old" "new" okTraceHandler { out := [], warnings := [], writeFail := [] } sampleHelper 1 =
      ({ out := ["handler-ran"],
         warnings := [deprecatedMsg "old" "new", removedMsg "old"],
         writeFail := [] }, Except.ok ()) := by
  exact renamed_cmd_warnings_order "old" "new" okTraceHandler
    { out := [], warnings := [], writeFail := [] } sampleHelper 1 rfl

/-- Claim C4: for every wrapped handler and argument set, the adapter, after
emitting its warnings, invokes the handler with the original arguments and
context and returns its result unchanged; in particular when the handler
returns an error, the adapter returns exactly that error — no retry, no
fallback, no error translation. -/
theorem renamed_cmd_error_passthrough {A : Type} (old_name new_name : String) (cmd : HandlerFn A)
    (ui : Ui) (command : CommandHelper) (args : A)
    (u2 : Ui) (e : CommandError)
    (hok : ui.writeFail = [])
    (herr : cmd { ui with warnings := ui.warnings ++ [deprecatedMsg old_name new_name, removedMsg old_name] }
      command args = (u2, Except.error e)) :
    renamed_cmd old_name new_name cmd ui command args = (u2, Except.error e) := by
  obtain ⟨o, w, f⟩ := ui
  simp only [Ui.writeFail] at hok
  subst hok
  simp only [List.append_assoc] at herr ⊢
  simp [renamed_cmd, warning_writeln, List.append_assoc, herr]

/-- Witness for C4: wrap of status as show around a handler failing with an
opaque error; the error comes back exactly, after the two warnings. -/
theorem renamed_cmd_error_passthrough_witness :
    renamed_cmd "status" "show" errHandler { out := [], warnings := [], writeFail := [] } sampleHelper 7 =
      ({ out := [], warnings := [deprecatedMsg "status" "show", removedMsg "status"], writeFail := [] },
        Except.error (CommandError.handler 3)) := by
  exact renamed_cmd_error_passthrough "status" "show" errHandler
    { out := [], warnings := [], writeFail := [] } sampleHelper 7
    { out := [], warnings := [deprecatedMsg "status" "show", removedMsg "status"], writeFail := [] }
    (CommandError.handler 3) rfl rfl

/-- Claim C5, counterexample: a wrapped handler that always succeeds, under a
sink whose first warning write fails, makes the adapter return the write
error with no handler output — so the emission of the warnings does affect
control flow and the exit status, contradicting the claim as stated. -/
theorem renamed_cmd_advisory_counterexample :
    (okTraceHandler { out := [], warnings := [], writeFail := [] } sampleHelper 0).2 = Except.ok () ∧
    renamed_cmd "status" "show" okTraceHandler { out := [], warnings := [], writeFail := [true] } sampleHelper 0 =
      ({ out := [], warnings := [], writeFail := [] }, Except.error CommandError.ioWrite) ∧
    (Except.error CommandError.ioWrite : Except CommandError Unit) ≠ Except.ok () := by
  refine ⟨rfl, rfl, ?_⟩
  intro hcon
  cases hcon

/-- Claim C5 as amended: when both warning writes succeed, the emission of
the deprecation warnings never affects control flow or exit status — the
wrapped handler is invoked and its result alone determines the returned
value; a failing warning write instead propagates the write error (claim
C10). -/
theorem renamed_cmd_advisory_amended {A : Type} (old_name new_name : String) (cmd : HandlerFn A)
    (ui : Ui) (command : CommandHelper) (args : A)
    (hok : ui.writeFail = []) :
    (renamed_cmd old_name new_name cmd ui command args).2 =
      (cmd { ui with warnings := ui.warnings ++ [deprecatedMsg old_name new_name, removedMsg old_name] }
        command args).2 := by
  obtain ⟨o, w, f⟩ := ui
  simp only [Ui.writeFail] at hok
  subst hok
  simp [renamed_cmd, warning_writeln, List.append_assoc]

/-- Witness for the amended C5 at a concrete failing handler. -/
theorem renamed_cmd_advisory_amended_witness :
    (renamed_cmd "old" "new" errHandler { out := [], warnings := [], writeFail := [] } sampleHelper 2).2 =
      (errHandler { out := [], warnings := [deprecatedMsg "old" "new", removedMsg "old"], writeFail := [] }
        sampleHelper 2).2 := by
  exact renamed_cmd_advisory_amended "old" "new" errHandler
    { out := [], warnings := [], writeFail := [] } sampleHelper 2 rfl

/-- Claim C6: for every descriptor whose required capability is unset, the
built schema contains no entry for its canonical name or any alias — the
descriptor is wholly absent — and matching such a name yields the same
unknown-command error class as an entirely nonexistent name (second
conjunct). -/
theorem capability_gated_wholly_absent (caps : Caps) (d : Descriptor) (cap : Cap)
    (hmem : d ∈ fullCatalog) (hcap : d.capability = some cap)
    (hoff : capEnabled caps cap = false) :
    (∀ tok, tok = d.name ∨ tok ∈ d.aliases →
      engine_match (default_app caps) tok = Except.error (MatchError.unknownCommand tok)) ∧
    (∀ tok, (∀ x ∈ fullCatalog, matchesTok tok x = false) →
      engine_match (default_app caps) tok = Except.error (MatchError.unknownCommand tok)) := by
  have h3 : d = benchD ∨ d = gerritD ∨ d = gitD := by
    have hall : ∀ x ∈ fullCatalog, x.capability.isSome = true →
        (x = benchD ∨ x = gerritD ∨ x = gitD) := by decide
    exact hall d hmem (by rw [hcap]; rfl)
  constructor
  · intro tok htok
    apply engine_match_unknown
    intro e he
    obtain ⟨hef, hsat⟩ := mem_default_app he
    rcases h3 with rfl | rfl | rfl
    · simp only [benchD] at hcap htok
      rw [Option.some_inj] at hcap
      subst hcap
      simp only [List.mem_nil_iff, or_false] at htok
      subst htok
      have huniq : ∀ x ∈ fullCatalog, matchesTok "bench" x = true → x = benchD := by decide
      by_contra hmt
      rw [Bool.not_eq_false] at hmt
      have hx := huniq e.desc hef hmt
      rw [hx] at hsat
      simp only [benchD, capSatisfied] at hsat
      rw [hsat] at hoff
      cases hoff
    · simp only [gerritD] at hcap htok
      rw [Option.some_inj] at hcap
      subst hcap
      simp only [List.mem_nil_iff, or_false] at htok
      subst htok
      have huniq : ∀ x ∈ fullCatalog, matchesTok "gerrit" x = true → x = gerritD := by decide
      by_contra hmt
      rw [Bool.not_eq_false] at hmt
      have hx := huniq e.desc hef hmt
      rw [hx] at hsat
      simp only [gerritD, capSatisfied] at hsat
      rw [hsat] at hoff
      cases hoff
    · simp only [gitD] at hcap htok
      rw [Option.some_inj] at hcap
      subst hcap
      simp only [List.mem_nil_iff, or_false] at htok
      subst htok
      have huniq : ∀ x ∈ fullCatalog, matchesTok "git" x = true → x = gitD := by decide
      by_contra hmt
      rw [Bool.not_eq_false] at hmt
      have hx := huniq e.desc hef hmt
      rw [hx] at hsat
      simp only [gitD, capSatisfied] at hsat
      rw [hsat] at hoff
      cases hoff
  · intro tok htok
    apply engine_match_unknown
    intro e he
    exact htok e.desc (mem_default_app he).1

/-- Witness for C6: with both capabilities off, the name git is not
matchable at all. -/
theorem capability_gated_wholly_absent_witness :
    engine_match (default_app { git := false, bench := false }) "git" =
      Except.error (MatchError.unknownCommand "git") := by
  exact (capability_gated_wholly_absent { git := false, bench := false } gitD Cap.git
    (by decide) rfl rfl).1 "git" (Or.inl rfl)

/-- Claim C7: for every match result naming a command absent from the
compiled-in catalog, run_command takes the defensive-invariant-violation
abort (the unwrap), a class distinct from any completed handler result and
from the unknown-command user-error class owned by the matching engine — it
is never presented as a typo. -/
theorem unknown_subcommand_invariant_violation (h : Handlers) (ui : Ui)
    (command_helper : CommandHelper)
    (hn : command_helper.arg_matches.subcommand ∉ catalogNames) :
    run_command h ui command_helper = RunResult.invariantViolation ∧
    ∀ r, RunResult.invariantViolation ≠ RunResult.completed r := by
  have hkeys : decoders.map Prod.fst = catalogNames := by rfl
  have hdec : from_arg_matches command_helper.arg_matches = none := by
    unfold from_arg_matches
    rw [lookup_eq_none_of_keys]
    · rfl
    · intro p hp hcon
      exact hn (hkeys ▸ (hcon ▸ List.mem_map_of_mem Prod.fst hp))
  refine ⟨?_, fun r hcon => RunResult.noConfusion hcon⟩
  unfold run_command
  rw [hdec]

/-- Witness for C7 at a concrete nonexistent subcommand name. -/
theorem unknown_subcommand_invariant_violation_witness :
    run_command traceHandlers { out := [], warnings := [], writeFail := [] }
      { arg_matches := { subcommand := "frobnicate", payload := 0 } } = RunResult.invariantViolation := by
  exact (unknown_subcommand_invariant_violation traceHandlers
    { out := [], warnings := [], writeFail := [] }
    { arg_matches := { subcommand := "frobnicate", payload := 0 } } (by decide)).1

/-- Claim C8: for every capability set and every decoded argument payload,
parsing an invocation via any alias (obslog and evolution-log for evolog, op
for operation) yields the identical command variant, with identical decoded
argument data, as parsing via the canonical name. -/
theorem alias_parse_identical (caps : Caps) (payload : Nat) :
    parse caps "obslog" payload = parse caps "evolog" payload ∧
    parse caps "evolution-log" payload = parse caps "evolog" payload ∧
    parse caps "op" payload = parse caps "operation" payload ∧
    parse caps "evolog" payload = some (Command.Evolog payload) ∧
    parse caps "operation" payload = some (Command.Operation payload) := by
  obtain ⟨g, b⟩ := caps
  cases g <;> cases b <;> exact ⟨rfl, rfl, rfl, rfl, rfl⟩

/-- Claim C9: the schema self-check aborts unconditionally on any catalog in
which two distinct descriptors share a matchable name (canonical or alias),
with no parsing involved, and the automated verify_app test runs the check
once on the real default schema, where it passes. -/
theorem schema_self_check_duplicates_abort :
    (∀ (cat : List Descriptor) (d1 d2 : Descriptor) (s : String),
       d1 ∈ cat → d2 ∈ cat → d1 ≠ d2 → s ∈ descNames d1 → s ∈ descNames d2 →
       debug_assert cat = CheckResult.aborted) ∧
    verify_app = CheckResult.passed := by
  constructor
  · intro cat d1 d2 s h1 h2 hne hs1 hs2
    unfold debug_assert
    rw [if_neg (shared_name_not_nodup cat d1 d2 s h1 h2 hne hs1 hs2)]
  · decide

/-- Witness for C9: a two-descriptor catalog deliberately sharing the
canonical name log is rejected. -/
theorem schema_self_check_duplicates_abort_witness :
    debug_assert [plainD "log", dupD] = CheckResult.aborted := by
  exact schema_self_check_duplicates_abort.1 [plainD "log", dupD] (plainD "log") dupD "log"
    (by decide) (by decide) (by decide) (by decide) (by decide)

/-- Claim C10: if writing either of the two deprecation warning lines fails
with an I/O error, the adapter returns that write error immediately —
without invoking the wrapped handler at all: the outcome does not depend on
the wrapped handler in either failure case. -/
theorem renamed_cmd_write_failure_short_circuit {A : Type} (old_name new_name : String)
    (cmd : HandlerFn A) (ui : Ui) (command : CommandHelper) (args : A) :
    (∀ rest, ui.writeFail = true :: rest →
      renamed_cmd old_name new_name cmd ui command args =
        ({ ui with writeFail := rest }, Except.error CommandError.ioWrite)) ∧
    (∀ rest, ui.writeFail = false :: true :: rest →
      renamed_cmd old_name new_name cmd ui command args =
        ({ ui with warnings := ui.warnings ++ [deprecatedMsg old_name new_name], writeFail := rest },
          Except.error CommandError.ioWrite)) := by
  constructor
  · intro rest hf
    obtain ⟨o, w, f⟩ := ui
    simp only [Ui.writeFail] at hf
    subst hf
    simp [renamed_cmd, warning_writeln]
  · intro rest hf
    obtain ⟨o, w, f⟩ := ui
    simp only [Ui.writeFail] at hf
    subst hf
    simp [renamed_cmd, warning_writeln]

/-- Witness for C10: both failure positions, around a handler that would
have returned an error of its own; the I/O error is returned instead and
the handler output never appears. -/
theorem renamed_cmd_write_failure_short_circuit_witness :
    renamed_cmd "old" "new" errHandler { out := [], warnings := [], writeFail := [true] } sampleHelper 2 =
      ({ out := [], warnings := [], writeFail := [] }, Except.error CommandError.ioWrite) ∧
    renamed_cmd "old" "new" errHandler { out := [], warnings := [], writeFail := [false, true] } sampleHelper 2 =
      ({ out := [], warnings := [deprecatedMsg "old" "new"], writeFail := [] },
        Except.error CommandError.ioWrite) := by
  constructor
  · exact (renamed_cmd_write_failure_short_circuit "old" "new" errHandler
      { out := [], warnings := [], writeFail := [true] } sampleHelper 2).1 [] rfl
  · exact (renamed_cmd_write_failure_short_circuit "old" "new" errHandler
      { out := [], warnings := [], writeFail := [false, true] } sampleHelper 2).2 [] rfl
